import Mathlib

/-!
Shallow embedding of `src/depositor/src/main.rs` (crate `depositor` of
`halseth/ephemeral-sign`): a two-stage Bitcoin deposit builder that
constructs an unsigned deposit transaction, ships it to a remote signer,
signs and finalizes the returned deposit PSBT for a Taproot key-path
spend, and consensus-verifies the deposit and the presigned spend.

Bitcoin-library values (amounts, scripts, transactions, PSBT inputs) are
embedded as plain Lean structures over `Nat` / `List Nat`.  Cryptographic
primitives and consensus checks consumed from the underlying `bitcoin` /
`secp256k1` crates (x-only key derivation, P2TR script construction,
Schnorr signing, consensus verification, serialization to hex/JSON) are
abstracted into a `CryptoEnv` record of functions; everything the program
itself computes is embedded concretely.
-/

/-- Satoshi amounts (`bitcoin::Amount`, a `u64`). -/
abbrev Amount : Type := Nat

/-- `bitcoin::Txid`, abstracted to a number (32-byte hash). -/
abbrev Txid : Type := Nat

/-- `bitcoin::OutPoint`: a (txid, vout) pair. -/
structure OutPoint where
  txid : Txid
  vout : Nat
  deriving DecidableEq

/-- `bitcoin::ScriptBuf`: a script as a byte list.  `ScriptBuf::default()`
is the empty script. -/
abbrev ScriptBuf : Type := List Nat

/-- `ScriptBuf::default()` — the empty script. -/
def ScriptBuf.default : ScriptBuf := []

/-- `bitcoin::TxOut`: output value plus locking script. -/
structure TxOut where
  value : Amount
  script_pubkey : ScriptBuf
  deriving DecidableEq

/-- `bitcoin::Witness`: a stack of byte-string elements.
`Witness::default()` is the empty stack. -/
abbrev Witness : Type := List (List Nat)

/-- `Witness::default()` — the empty witness stack. -/
def Witness.default : Witness := []

/-- `Sequence::ENABLE_RBF_NO_LOCKTIME` = `0xFFFFFFFD`. -/
def sequenceEnableRbfNoLocktime : Nat := 0xFFFFFFFD

/-- `bitcoin::TxIn`. -/
structure TxIn where
  previous_output : OutPoint
  script_sig : ScriptBuf
  sequence : Nat
  witness : Witness
  deriving DecidableEq

/-- `bitcoin::Transaction` (version is `transaction::Version`, an `i32`;
lock time is `absolute::LockTime`, embedded as its consensus `u32`). -/
structure Transaction where
  version : Int
  lock_time : Nat
  input : List TxIn
  output : List TxOut
  deriving DecidableEq

/-- An x-only public key (`bitcoin::XOnlyPublicKey`), abstracted to a
number (32 bytes). -/
abbrev XOnlyPublicKey : Type := Nat

/-- `bitcoin::bip32::Fingerprint` (4 bytes), as a byte list. -/
abbrev Fingerprint : Type := List Nat

/-- `bip32::DerivationPath`, as a list of child numbers. -/
abbrev DerivationPath : Type := List Nat

/-- `bitcoin::bip32::KeySource` = `(Fingerprint, DerivationPath)`. -/
structure KeySource where
  fingerprint : Fingerprint
  path : DerivationPath
  deriving DecidableEq

/-- `KeySource::default()`: zero fingerprint, empty derivation path. -/
def KeySource.default : KeySource := ⟨[0, 0, 0, 0], []⟩

/-- `bitcoin::TapSighashType`. -/
inductive TapSighashType where
  | default
  | all
  | none
  | single
  | allPlusAnyoneCanPay
  | nonePlusAnyoneCanPay
  | singlePlusAnyoneCanPay
  deriving DecidableEq

/-- The consensus byte of a `TapSighashType` (`to_consensus_u8`). -/
def TapSighashType.toU8 : TapSighashType → Nat
  | .default => 0x00
  | .all => 0x01
  | .none => 0x02
  | .single => 0x03
  | .allPlusAnyoneCanPay => 0x81
  | .nonePlusAnyoneCanPay => 0x82
  | .singlePlusAnyoneCanPay => 0x83

/-- `TapSighashType::from_consensus_u8` (errors on any other byte). -/
def tapSighashFromU8 : Nat → Option TapSighashType
  | 0x00 => some .default
  | 0x01 => some .all
  | 0x02 => some .none
  | 0x03 => some .single
  | 0x81 => some .allPlusAnyoneCanPay
  | 0x82 => some .nonePlusAnyoneCanPay
  | 0x83 => some .singlePlusAnyoneCanPay
  | _ => Option.none

/-- `psbt::PsbtSighashType`: a raw `u32`.  `TapSighashType::All.into()`
yields inner value 1. -/
abbrev PsbtSighashType : Type := Nat

/-- `PsbtSighashType::from(TapSighashType::All)` — inner `u32` is 1. -/
def psbtSighashAll : PsbtSighashType := (1 : Nat)

/-- `input.sighash_type.map(taproot_hash_ty).unwrap_or(Ok(Default))` as
used by the PSBT signer role: no sighash type means `Default`; a stored
`u32` must fit a byte and be a valid taproot sighash. -/
def taprootHashTyOf : Option PsbtSighashType → Option TapSighashType
  | Option.none => some .default
  | some n => if n ≤ 0xff then tapSighashFromU8 n else Option.none

/-- `bitcoin::taproot::Signature`: 64 Schnorr signature bytes plus the
sighash type it commits to. -/
structure TaprootSignature where
  signature : List Nat
  sighash_type : TapSighashType
  deriving DecidableEq

/-- `taproot::Signature::to_vec()`: the signature bytes, with the sighash
byte appended iff the type is not `Default`. -/
def TaprootSignature.toVec (s : TaprootSignature) : List Nat :=
  s.signature ++ (if s.sighash_type = .default then [] else [s.sighash_type.toU8])

/-- `Witness::p2tr_key_spend(&sig)`: a single-element witness stack
holding the serialized signature. -/
def Witness.p2tr_key_spend (s : TaprootSignature) : Witness :=
  [s.toVec]

/-- `bitcoin::psbt::Input` (BIP-174 per-input map), with maps embedded as
association lists.  All fields of the Rust struct are present so that
"which fields remain populated after finalization" is faithfully
expressible. -/
structure Input where
  non_witness_utxo : Option Transaction := Option.none
  witness_utxo : Option TxOut := Option.none
  partial_sigs : List (Nat × List Nat) := []
  sighash_type : Option PsbtSighashType := Option.none
  redeem_script : Option ScriptBuf := Option.none
  witness_script : Option ScriptBuf := Option.none
  bip32_derivation : List (Nat × KeySource) := []
  final_script_sig : Option ScriptBuf := Option.none
  final_script_witness : Option Witness := Option.none
  ripemd160_preimages : List (Nat × List Nat) := []
  sha256_preimages : List (Nat × List Nat) := []
  hash160_preimages : List (Nat × List Nat) := []
  hash256_preimages : List (Nat × List Nat) := []
  tap_key_sig : Option TaprootSignature := Option.none
  tap_script_sigs : List ((XOnlyPublicKey × Nat) × TaprootSignature) := []
  tap_scripts : List (Nat × (ScriptBuf × Nat)) := []
  tap_key_origins : List (XOnlyPublicKey × (List Nat × KeySource)) := []
  tap_internal_key : Option XOnlyPublicKey := Option.none
  tap_merkle_root : Option Nat := Option.none
  proprietary : List (Nat × List Nat) := []
  unknown : List (Nat × List Nat) := []
  deriving DecidableEq

/-- `psbt::Input::default()`: every field empty/None. -/
def Input.default : Input := {}

/-- `bitcoin::Psbt`, restricted to the parts this program touches: the
unsigned transaction and the per-input maps. -/
structure Psbt where
  unsigned_tx : Transaction
  inputs : List Input
  deriving DecidableEq

/-- `bitcoin::Network` (the CLI enum). -/
inductive Network where
  | bitcoin
  | testnet
  | signet
  | regtest
  deriving DecidableEq

/-- The CLI configuration record (`struct Args`).  `SocketAddr` is
abstracted to its display string. -/
structure Args where
  prevout : OutPoint
  prev_amt : Amount
  fallback_addr : String
  output_amt : Amount
  change_addr : Option String
  change_amt : Option Amount
  client_url : Option String
  priv_key : Option String
  network : Network

/-- `shared::SignPsbtResp`: the remote signer's reply. -/
structure SignPsbtResp where
  deposit_psbt : Psbt
  spend_psbt : Psbt

/-! ## Hex parsing and key loading (`SecretKey::from_str`) -/

/-- Value of one hex digit, `None` for a non-hex character. -/
def hexVal (c : Char) : Option Nat :=
  if '0' ≤ c ∧ c ≤ '9' then some (c.toNat - '0'.toNat)
  else if 'a' ≤ c ∧ c ≤ 'f' then some (c.toNat - 'a'.toNat + 10)
  else if 'A' ≤ c ∧ c ≤ 'F' then some (c.toNat - 'A'.toNat + 10)
  else Option.none

/-- Fold a hex digit string into a number, `None` on a non-hex character. -/
def hexDigitsToNat : List Char → Nat → Option Nat
  | [], acc => some acc
  | c :: cs, acc =>
    match hexVal c with
    | some v => hexDigitsToNat cs (acc * 16 + v)
    | Option.none => Option.none

/-- The secp256k1 group order. -/
def secpOrder : Nat :=
  0xFFFFFFFFFFFFFFFFFFFFFFFFFFFFFFFEBAAEDCE6AF48A03BBFD25E8CD0364141

/-- `secp256k1::Error` (the variant this program can hit). -/
inductive SecpError where
  | invalidSecretKey
  deriving DecidableEq

/-- `SecretKey::from_str`: exactly 64 hex characters decoding to a valid
scalar (nonzero and below the group order); every failure is
`Error::InvalidSecretKey`. -/
def secretFromStr (s : String) : Except SecpError Nat :=
  if s.length = 64 then
    match hexDigitsToNat s.toList 0 with
    | some k =>
      if 0 < k ∧ k < secpOrder then .ok k else .error .invalidSecretKey
    | Option.none => .error .invalidSecretKey
  else .error .invalidSecretKey

/-- Lower-case hex character of a digit value below 16. -/
def hexDigitChar (n : Nat) : Char :=
  if n < 10 then Char.ofNat ('0'.toNat + n) else Char.ofNat ('a'.toNat + n - 10)

/-- `i` least-significant nibbles of `n` as hex characters, prepended to
`acc`. -/
def hexEncodeAux : Nat → Nat → List Char → List Char
  | 0, _, acc => acc
  | i + 1, n, acc => hexEncodeAux i (n / 16) (hexDigitChar (n % 16) :: acc)

/-- 64-hex-character rendering of a 32-byte value (`hex::encode` of secret
bytes; `Display` of an x-only public key). -/
def hexEncode32 (n : Nat) : String := String.mk (hexEncodeAux 64 n [])

/-! ## Panics, events, and the abstracted library environment -/

/-- The causes on which `main` panics (each `unwrap`/`expect` site). -/
inductive PanicCause where
  | invalidSecret
  | badAddress
  | missingChangeAmt
  | psbtCreate
  | missingClientUrl
  | remoteUnavailable
  | extractFailed
  | signingFailed
  | missingTapKeySig
  | indexOutOfBounds
  | verifyFailed
  deriving DecidableEq

/-- Observable / ordering events of a run: console prints, the HTTP
round-trip, and markers for extraction, signing, finalization and the two
consensus verifications. -/
inductive Event where
  | print (s : String)
  | httpCall
  | spendExtracted
  | depositSigned
  | depositFinalized
  | depositExtracted
  | verifyDeposit
  | verifySpend
  deriving DecidableEq

/-- How the process ends: `normal` is a plain return from `main` (exit
code 0); `panicked` is an `unwrap`/`expect` panic (non-zero exit). -/
inductive Outcome where
  | normal
  | panicked (c : PanicCause)
  deriving DecidableEq

/-- The library functionality consumed from the `bitcoin` / `secp256k1` /
`serde` crates, abstracted to pure functions: key derivation, P2TR script
construction, address handling, serialization/format strings, Schnorr
signing, the `extract_tx` fee check, and consensus verification. -/
structure CryptoEnv where
  freshSecret : Nat
  xonlyOfSecret : Nat → XOnlyPublicKey
  p2trScript : XOnlyPublicKey → ScriptBuf
  addrOfScript : ScriptBuf → Network → String
  scriptOfAddr : String → Network → Option ScriptBuf
  serTxOutHex : TxOut → String
  serTxHex : Transaction → String
  serPsbtJson : Psbt → String
  fmtTx : Transaction → String
  fmtPsbt : Psbt → String
  fmtResp : SignPsbtResp → String
  schnorrSign : Psbt → Nat → List Nat
  extractCheck : Psbt → Bool
  consensusVerify : Transaction → (OutPoint → Except PanicCause (Option TxOut)) → Bool

/-! ## Deposit transaction builder (lines 119-161) -/

/-- The deposit's sole `TxIn` (lines 119-124): configured prevout, empty
script-sig, RBF sequence, empty witness. -/
def buildInput (prevout : OutPoint) : TxIn :=
  { previous_output := prevout
    script_sig := ScriptBuf.default
    sequence := sequenceEnableRbfNoLocktime
    witness := Witness.default }

/-- The deposit output (lines 128-131): configured amount, script not yet
determined (empty placeholder). -/
def depositOutput (output_amt : Amount) : TxOut :=
  { value := output_amt, script_pubkey := ScriptBuf.default }

/-- The optional change output (lines 134-143): `None` stays `None`; a
change address is parsed (panicking on a bad or wrong-network address) and
paired with `args.change_amt.unwrap()` (panicking when absent). -/
def buildChange (env : CryptoEnv) (change_addr : Option String)
    (change_amt : Option Amount) (network : Network) :
    Except PanicCause (Option TxOut) :=
  match change_addr with
  | Option.none => .ok Option.none
  | some addr =>
    match env.scriptOfAddr addr network with
    | Option.none => .error .badAddress
    | some spk =>
      match change_amt with
      | Option.none => .error .missingChangeAmt
      | some amt => .ok (some { value := amt, script_pubkey := spk })

/-- The unsigned deposit transaction (lines 145-156): version 2, locktime
0, the single input, and the deposit output optionally followed by the
change output. -/
def buildUnsignedTx (prevout : OutPoint) (output_amt : Amount)
    (change : Option TxOut) : Transaction :=
  { version := 2
    lock_time := 0
    input := [buildInput prevout]
    output :=
      match change with
      | Option.none => [depositOutput output_amt]
      | some c => [depositOutput output_amt, c] }

/-- `Psbt::from_unsigned_tx` (line 161): requires every input's script-sig
and witness to be empty; the per-input maps start out as defaults. -/
def psbtFromUnsignedTx (tx : Transaction) : Except PanicCause Psbt :=
  if tx.input.all
      (fun i => decide (i.script_sig = ScriptBuf.default) &&
        decide (i.witness = Witness.default)) then
    .ok { unsigned_tx := tx, inputs := tx.input.map (fun _ => Input.default) }
  else .error .psbtCreate

/-! ## Updater / Signer / Finalizer / Extractor (lines 172-211) -/

/-- `deposit_origin_input` (lines 177-178): a single entry mapping the
x-only pubkey to an empty leaf-hash list and the default key source. -/
def depositOriginInput (xk : XOnlyPublicKey) :
    List (XOnlyPublicKey × (List Nat × KeySource)) :=
  [(xk, ([], KeySource.default))]

/-- The populated deposit PSBT input (lines 181-188): witness UTXO, key
origins, internal key and sighash type set; every other field default. -/
def populatedInput (funding : TxOut) (xk : XOnlyPublicKey) : Input :=
  { witness_utxo := some funding
    tap_key_origins := depositOriginInput xk
    tap_internal_key := some xk
    sighash_type := some psbtSighashAll }

/-- Signer role for one input: requires the spend UTXO, decodes the
declared sighash type (defaulting to `Default` when absent), and stores a
Schnorr key-spend signature committing to it as `tap_key_sig`.  The key
map built at lines 172-175 always contains the internal key, so the
key-lookup step cannot fail here. -/
def signInput (env : CryptoEnv) (p : Psbt) (idx : Nat) (i : Input) :
    Except PanicCause Input :=
  match i.witness_utxo with
  | Option.none => .error .signingFailed
  | some _ =>
    match taprootHashTyOf i.sighash_type with
    | Option.none => .error .signingFailed
    | some hty =>
      .ok { i with tap_key_sig := some ⟨env.schnorrSign p idx, hty⟩ }

/-- Sign the inputs in order, numbering them from `idx`. -/
def signInputs (env : CryptoEnv) (p : Psbt) :
    Nat → List Input → Except PanicCause (List Input)
  | _, [] => .ok []
  | idx, i :: rest =>
    match signInput env p idx i with
    | .error e => .error e
    | .ok i' =>
      match signInputs env p (idx + 1) rest with
      | .error e => .error e
      | .ok rest' => .ok (i' :: rest')

/-- `Psbt::sign` (line 190), `expect("able to sign")` on error. -/
def Psbt.sign (env : CryptoEnv) (p : Psbt) : Except PanicCause Psbt :=
  (signInputs env p 0 p.inputs).map (fun is => { p with inputs := is })

/-- The finalization step applied to each input (lines 191-201): build the
key-spend witness from `input.tap_key_sig.unwrap()` (panicking when it is
absent), assign it to `final_script_witness`, and clear `partial_sigs`,
`sighash_type`, `redeem_script`, `witness_script` and `bip32_derivation`. -/
def finalizeInput (i : Input) : Except PanicCause Input :=
  match i.tap_key_sig with
  | Option.none => .error .missingTapKeySig
  | some sig =>
    .ok { i with
      final_script_witness := some (Witness.p2tr_key_spend sig)
      partial_sigs := []
      sighash_type := Option.none
      redeem_script := Option.none
      witness_script := Option.none
      bip32_derivation := [] }

/-- Finalize every input in order. -/
def finalizeInputs : List Input → Except PanicCause (List Input)
  | [] => .ok []
  | i :: rest =>
    match finalizeInput i with
    | .error e => .error e
    | .ok i' =>
      match finalizeInputs rest with
      | .error e => .error e
      | .ok rest' => .ok (i' :: rest')

/-- The `for_each` finalization loop over the PSBT's inputs. -/
def finalizePsbt (p : Psbt) : Except PanicCause Psbt :=
  (finalizeInputs p.inputs).map (fun is => { p with inputs := is })

/-- Extractor role, witness application: each transaction input paired
with a PSBT input takes that input's final script-sig and witness
(defaults when unset); unpaired transaction inputs are unchanged. -/
def applyFinal : List TxIn → List Input → List TxIn
  | txins, [] => txins
  | [], _ => []
  | vin :: vs, pin :: ps =>
    { vin with
      script_sig := pin.final_script_sig.getD ScriptBuf.default
      witness := pin.final_script_witness.getD Witness.default } ::
      applyFinal vs ps

/-- `Psbt::extract_tx` (lines 166, 205): applies the final witnesses to
the unsigned transaction; the library's absurd-fee-rate check is
abstracted into the environment. -/
def Psbt.extract_tx (env : CryptoEnv) (p : Psbt) :
    Except PanicCause Transaction :=
  if env.extractCheck p then
    .ok { p.unsigned_tx with input := applyFinal p.unsigned_tx.input p.inputs }
  else .error .extractFailed

/-! ## Prevout-resolution oracles (lines 214-217 and 223-226) -/

/-- The closure passed to the deposit verification (lines 214-217):
`|op| Some(utxos[0].clone())` — indexing panics on an empty vector and the
queried outpoint is ignored. -/
def depositOracle (utxos : List TxOut) :
    OutPoint → Except PanicCause (Option TxOut) :=
  fun _op =>
    match utxos.head? with
    | some u => .ok (some u)
    | Option.none => .error .indexOutOfBounds

/-- The closure passed to the presigned-spend verification (lines
223-226): `|op| Some(signed_tx.output[0].clone())` — indexing panics on an
empty output list and the queried outpoint is ignored. -/
def spendOracle (signed_tx : Transaction) :
    OutPoint → Except PanicCause (Option TxOut) :=
  fun _op =>
    match signed_tx.output.head? with
    | some o => .ok (some o)
    | Option.none => .error .indexOutOfBounds

/-! ## The run of `main` (lines 69-229) -/

/-- Result of the key-selection phase (lines 76-102): either the process
returns/panics inside the phase, or it proceeds with the loaded secret and
its P2TR script-pubkey. -/
inductive KeyPhase where
  | exitRun (events : List Event) (oc : Outcome)
  | proceed (events : List Event) (secret : Nat) (script_pub : ScriptBuf)

/-- Lines 76-102: with no `priv_key` the program prints `priv key needed`
and returns; with `"new"` it generates a fresh secret, prints the secret
hex, pubkey and address, and returns; otherwise it loads the hex secret
(panicking on `InvalidSecretKey`), prints the same three lines and
proceeds.  `Address::from_script` of the P2TR script followed by
`.script_pubkey()` returns that same script, so the proceeding script-pubkey
is the P2TR script itself. -/
def keyPhase (env : CryptoEnv) (priv_key : Option String) (network : Network) :
    KeyPhase :=
  match priv_key with
  | Option.none => .exitRun [.print "priv key needed"] .normal
  | some s =>
    match (if s = "new" then Except.ok env.freshSecret else secretFromStr s) with
    | .error _ => .exitRun [] (.panicked .invalidSecret)
    | .ok secret =>
      let xk := env.xonlyOfSecret secret
      let spk := env.p2trScript xk
      let prints := [Event.print ("priv: " ++ hexEncode32 secret),
                     Event.print ("pub: " ++ hexEncode32 xk),
                     Event.print ("address: " ++ env.addrOfScript spk network)]
      if s = "new" then .exitRun prints .normal
      else .proceed prints secret spk

/-- What a terminated run exposes: its event trace, its outcome, and (on
the success path) the artifacts the verifier stage used. -/
structure RunOut where
  events : List Event
  outcome : Outcome
  funding : Option TxOut := Option.none
  unsignedTx : Option Transaction := Option.none
  presignedTx : Option Transaction := Option.none
  preSignPsbt : Option Psbt := Option.none
  signedTx : Option Transaction := Option.none
  finalPsbt : Option Psbt := Option.none

/-- The whole of `main` (lines 69-229), with the HTTP response supplied as
a parameter (`Option.none` models a failed round-trip, whose `unwrap`
panics).  Stages in source order: key phase, fallback-address parse,
funding `TxOut` build and print, change build, unsigned transaction and
PSBT creation, `client_url.unwrap()`, the HTTP exchange, presigned-spend
extraction, input population, signing, finalization, deposit extraction,
and the two consensus verifications. -/
def runMain (env : CryptoEnv) (args : Args) (resp? : Option SignPsbtResp) :
    RunOut :=
  match keyPhase env args.priv_key args.network with
  | .exitRun evs oc => { events := evs, outcome := oc }
  | .proceed evs0 secret script_pub =>
    match env.scriptOfAddr args.fallback_addr args.network with
    | Option.none => { events := evs0, outcome := .panicked .badAddress }
    | some _fallbackSpk =>
      let deposit_prevout : TxOut :=
        { value := args.prev_amt, script_pubkey := script_pub }
      let evs1 := evs0 ++
        [Event.print ("prevout: " ++ env.serTxOutHex deposit_prevout)]
      match buildChange env args.change_addr args.change_amt args.network with
      | .error c => { events := evs1, outcome := .panicked c }
      | .ok change =>
        let unsigned_tx := buildUnsignedTx args.prevout args.output_amt change
        match psbtFromUnsignedTx unsigned_tx with
        | .error c => { events := evs1, outcome := .panicked c }
        | .ok psbt =>
          match args.client_url with
          | Option.none => { events := evs1, outcome := .panicked .missingClientUrl }
          | some url =>
            let evs2 := evs1 ++
              [Event.print ("url: http://" ++ url ++ "/psbt"),
               Event.print ("body_json: " ++ env.serPsbtJson psbt),
               Event.httpCall]
            match resp? with
            | Option.none => { events := evs2, outcome := .panicked .remoteUnavailable }
            | some resp =>
              let evs3 := evs2 ++ [Event.print (env.fmtResp resp)]
              match Psbt.extract_tx env resp.spend_psbt with
              | .error c => { events := evs3, outcome := .panicked c }
              | .ok presigned_tx =>
                let evs4 := evs3 ++
                  [Event.spendExtracted,
                   Event.print ("Presigned Details: " ++ env.fmtTx presigned_tx),
                   Event.print ("Raw presigned Transaction: " ++
                     env.serTxHex presigned_tx)]
                let xk := env.xonlyOfSecret secret
                let deposit_psbt0 : Psbt :=
                  { resp.deposit_psbt with
                    inputs := [populatedInput deposit_prevout xk] }
                match Psbt.sign env deposit_psbt0 with
                | .error c => { events := evs4, outcome := .panicked c }
                | .ok signedPsbt =>
                  let evs5 := evs4 ++ [Event.depositSigned]
                  match finalizePsbt signedPsbt with
                  | .error c => { events := evs5, outcome := .panicked c }
                  | .ok finalized =>
                    let evs6 := evs5 ++
                      [Event.depositFinalized,
                       Event.print ("Deposit PSBT: " ++ env.fmtPsbt finalized)]
                    match Psbt.extract_tx env finalized with
                    | .error c => { events := evs6, outcome := .panicked c }
                    | .ok signed_tx =>
                      let evs7 := evs6 ++
                        [Event.depositExtracted,
                         Event.print ("Deposit Details: " ++ env.fmtTx signed_tx),
                         Event.print ("Raw deposit Transaction: " ++
                           env.serTxHex signed_tx),
                         Event.verifyDeposit]
                      if env.consensusVerify signed_tx
                          (depositOracle [deposit_prevout]) then
                        let evs8 := evs7 ++
                          [Event.print "Transaction Result: ()",
                           Event.verifySpend]
                        if env.consensusVerify presigned_tx
                            (spendOracle signed_tx) then
                          { events := evs8 ++
                              [Event.print "Pre-signed Transaction Result: ()"]
                            outcome := .normal
                            funding := some deposit_prevout
                            unsignedTx := some unsigned_tx
                            presignedTx := some presigned_tx
                            preSignPsbt := some deposit_psbt0
                            signedTx := some signed_tx
                            finalPsbt := some finalized }
                        else { events := evs8, outcome := .panicked .verifyFailed }
                      else { events := evs7, outcome := .panicked .verifyFailed }

/-! ## The success pipeline, named stage by stage -/

/-- The funding `TxOut` of a run that loaded secret `k` (lines 107-110):
the configured previous amount locked by the P2TR script of the derived
x-only key. -/
def fundingOf (env : CryptoEnv) (args : Args) (k : Nat) : TxOut :=
  { value := args.prev_amt
    script_pubkey := env.p2trScript (env.xonlyOfSecret k) }

/-- The deposit PSBT just before signing (lines 182-188): the remote's
deposit PSBT with its inputs replaced by the single populated input. -/
def preSignPsbtOf (env : CryptoEnv) (args : Args) (resp : SignPsbtResp)
    (k : Nat) : Psbt :=
  { resp.deposit_psbt with
    inputs := [populatedInput (fundingOf env args k) (env.xonlyOfSecret k)] }

/-- The sole input after the Signer role ran: the populated input with the
Schnorr key-spend signature (committing to `SIGHASH_ALL`) stored. -/
def signedInputOf (env : CryptoEnv) (args : Args) (resp : SignPsbtResp)
    (k : Nat) : Input :=
  { populatedInput (fundingOf env args k) (env.xonlyOfSecret k) with
    tap_key_sig :=
      some ⟨env.schnorrSign (preSignPsbtOf env args resp k) 0, .all⟩ }

/-- The deposit PSBT after signing. -/
def signedPsbtOf (env : CryptoEnv) (args : Args) (resp : SignPsbtResp)
    (k : Nat) : Psbt :=
  { resp.deposit_psbt with inputs := [signedInputOf env args resp k] }

/-- The sole input after the finalization loop. -/
def finalInputOf (env : CryptoEnv) (args : Args) (resp : SignPsbtResp)
    (k : Nat) : Input :=
  { signedInputOf env args resp k with
    final_script_witness :=
      some (Witness.p2tr_key_spend
        ⟨env.schnorrSign (preSignPsbtOf env args resp k) 0, .all⟩)
    partial_sigs := []
    sighash_type := Option.none
    redeem_script := Option.none
    witness_script := Option.none
    bip32_derivation := [] }

/-- The deposit PSBT after finalization. -/
def finalPsbtOf (env : CryptoEnv) (args : Args) (resp : SignPsbtResp)
    (k : Nat) : Psbt :=
  { resp.deposit_psbt with inputs := [finalInputOf env args resp k] }

/-- The extracted presigned spend transaction. -/
def presignedTxOf (resp : SignPsbtResp) : Transaction :=
  { resp.spend_psbt.unsigned_tx with
    input := applyFinal resp.spend_psbt.unsigned_tx.input resp.spend_psbt.inputs }

/-- The extracted signed deposit transaction. -/
def signedTxOf (env : CryptoEnv) (args : Args) (resp : SignPsbtResp)
    (k : Nat) : Transaction :=
  { resp.deposit_psbt.unsigned_tx with
    input := applyFinal resp.deposit_psbt.unsigned_tx.input
      [finalInputOf env args resp k] }

/-- The full event trace of a successful run, in source order. -/
def successEvents (env : CryptoEnv) (args : Args) (resp : SignPsbtResp)
    (k : Nat) (change : Option TxOut) (url : String) : List Event :=
  [Event.print ("priv: " ++ hexEncode32 k),
   Event.print ("pub: " ++ hexEncode32 (env.xonlyOfSecret k)),
   Event.print ("address: " ++
     env.addrOfScript (env.p2trScript (env.xonlyOfSecret k)) args.network),
   Event.print ("prevout: " ++ env.serTxOutHex (fundingOf env args k)),
   Event.print ("url: http://" ++ url ++ "/psbt"),
   Event.print ("body_json: " ++ env.serPsbtJson
     { unsigned_tx := buildUnsignedTx args.prevout args.output_amt change
       inputs := [Input.default] }),
   Event.httpCall,
   Event.print (env.fmtResp resp),
   Event.spendExtracted,
   Event.print ("Presigned Details: " ++ env.fmtTx (presignedTxOf resp)),
   Event.print ("Raw presigned Transaction: " ++ env.serTxHex (presignedTxOf resp)),
   Event.depositSigned,
   Event.depositFinalized,
   Event.print ("Deposit PSBT: " ++ env.fmtPsbt (finalPsbtOf env args resp k)),
   Event.depositExtracted,
   Event.print ("Deposit Details: " ++ env.fmtTx (signedTxOf env args resp k)),
   Event.print ("Raw deposit Transaction: " ++ env.serTxHex (signedTxOf env args resp k)),
   Event.verifyDeposit,
   Event.print "Transaction Result: ()",
   Event.verifySpend,
   Event.print "Pre-signed Transaction Result: ()"]


/-! ## A concrete instantiation of the library environment, for witnesses -/

/-- A minimal concrete `CryptoEnv`: derivations and renderings are simple
total functions, the extraction check and both consensus verifications
accept. -/
def trivEnv : CryptoEnv :=
  { freshSecret := 7
    xonlyOfSecret := fun n => n + 1
    p2trScript := fun xk => [0x51, 0x20, xk]
    addrOfScript := fun _ _ => "tb1p-sample"
    scriptOfAddr := fun _ _ => some [0x51, 0x20, 99]
    serTxOutHex := fun _ => "txouthex"
    serTxHex := fun _ => "txhex"
    serPsbtJson := fun _ => "psbtjson"
    fmtTx := fun _ => "txfmt"
    fmtPsbt := fun _ => "psbtfmt"
    fmtResp := fun _ => "respfmt"
    schnorrSign := fun _ _ => List.replicate 64 0xAA
    extractCheck := fun _ => true
    consensusVerify := fun _ _ => true }

/-- A 64-hex-character secret string that loads as the scalar 1. -/
def sampleSecretHex : String :=
  "0000000000000000000000000000000000000000000000000000000000000001"

/-- A sample unsigned transaction standing for what the remote signer
returns inside its PSBTs. -/
def sampleTx : Transaction :=
  { version := 2
    lock_time := 0
    input := [buildInput { txid := 9, vout := 1 }]
    output := [{ value := 80000, script_pubkey := [0x51] }] }

/-- A sample remote-signer response: a deposit PSBT and an
already-finalized spend PSBT over `sampleTx`. -/
def sampleResp : SignPsbtResp :=
  { deposit_psbt := { unsigned_tx := sampleTx, inputs := [Input.default] }
    spend_psbt :=
      { unsigned_tx := sampleTx
        inputs := [{ final_script_witness := some [[0xAB]] }] } }

/-- A base configuration: valid loaded key, no change, client URL set. -/
def baseArgs : Args :=
  { prevout := { txid := 5, vout := 0 }
    prev_amt := 100000
    fallback_addr := "fallback"
    output_amt := 90000
    change_addr := Option.none
    change_amt := Option.none
    client_url := some "127.0.0.1:8080"
    priv_key := some sampleSecretHex
    network := .signet }

/-- `baseArgs` with a change amount but no change address. -/
def amtOnlyArgs : Args := { baseArgs with change_amt := some 9000 }

/-- `baseArgs` with a change address but no change amount. -/
def addrOnlyArgs : Args := { baseArgs with change_addr := some "chg" }

/-- `baseArgs` in fresh-key mode. -/
def newKeyArgs : Args := { baseArgs with priv_key := some "new" }

/-- `baseArgs` with no private key. -/
def noKeyArgs : Args := { baseArgs with priv_key := Option.none }

/-- `baseArgs` with a private key that is neither `"new"` nor valid hex. -/
def badKeyArgs : Args := { baseArgs with priv_key := some "zz" }

/-- A concrete signed deposit input: the populated input with a stored
key-spend signature. -/
def wSignedInput : Input :=
  { populatedInput { value := 100000, script_pubkey := [0x51, 0x20, 2] } 2 with
    tap_key_sig := some ⟨List.replicate 64 0xAA, .all⟩ }

/-- `wSignedInput` after the finalization step. -/
def wFinalInput : Input :=
  match finalizeInput wSignedInput with
  | .ok j => j
  | .error _ => Input.default

/-- The run of `main` on the base configuration against the sample
response, under the concrete environment. -/
def sampleRun : RunOut := runMain trivEnv baseArgs (some sampleResp)

/-- The deposit PSBT input after finalization in `sampleRun`. -/
def sampleFinalInput : Input :=
  match sampleRun.finalPsbt with
  | some p => p.inputs.headD Input.default
  | Option.none => Input.default

/-- The spec sentence "only `final_script_witness` remains" read literally:
`final_script_witness` is set and every other per-input metadata field is
empty/None.  (Stated from the spec wording, for comparison with the
code's finalizer.) -/
def onlyFinalScriptWitnessRemains (i : Input) : Prop :=
  (i.non_witness_utxo = Option.none ∧ i.witness_utxo = Option.none ∧
    i.partial_sigs = [] ∧ i.sighash_type = Option.none ∧
    i.redeem_script = Option.none) ∧
  (i.witness_script = Option.none ∧ i.bip32_derivation = [] ∧
    i.final_script_sig = Option.none ∧ i.final_script_witness.isSome = true ∧
    i.ripemd160_preimages = []) ∧
  (i.sha256_preimages = [] ∧ i.hash160_preimages = [] ∧
    i.hash256_preimages = [] ∧ i.tap_key_sig = Option.none ∧
    i.tap_script_sigs = []) ∧
  (i.tap_scripts = [] ∧ i.tap_key_origins = [] ∧
    i.tap_internal_key = Option.none ∧ i.tap_merkle_root = Option.none ∧
    i.proprietary = [] ∧ i.unknown = [])

set_option synthInstance.maxSize 2048 in
instance : DecidablePred onlyFinalScriptWitnessRemains := fun i => by
  unfold onlyFinalScriptWitnessRemains; infer_instance

/-- The non-print (structural) events of a trace, keeping their order. -/
def coreEvents (l : List Event) : List Event :=
  l.filter (fun e => match e with | .print _ => false | _ => true)

/-- The Creator role succeeds on the built transaction: its only input
has empty script-sig and witness. -/
theorem psbtFromUnsignedTx_build (prevout : OutPoint) (output_amt : Amount)
    (change : Option TxOut) :
    psbtFromUnsignedTx (buildUnsignedTx prevout output_amt change) =
      .ok { unsigned_tx := buildUnsignedTx prevout output_amt change
            inputs := [Input.default] } := rfl

/-- Signing the populated deposit PSBT always succeeds and stores the
key-spend signature. -/
theorem sign_preSignPsbt (env : CryptoEnv) (args : Args) (resp : SignPsbtResp)
    (k : Nat) :
    Psbt.sign env (preSignPsbtOf env args resp k) =
      .ok (signedPsbtOf env args resp k) := rfl

/-- Finalizing the signed deposit PSBT always succeeds. -/
theorem finalize_signedPsbt (env : CryptoEnv) (args : Args)
    (resp : SignPsbtResp) (k : Nat) :
    finalizePsbt (signedPsbtOf env args resp k) =
      .ok (finalPsbtOf env args resp k) := rfl

/-- Key phase, load mode: a hex secret distinct from `"new"` that loads
as scalar `k` prints the three key lines and proceeds with the P2TR
script. -/
theorem keyPhase_load (env : CryptoEnv) (s : String) (k : Nat)
    (network : Network) (hnew : s ≠ "new") (hsec : secretFromStr s = .ok k) :
    keyPhase env (some s) network =
      .proceed
        [Event.print ("priv: " ++ hexEncode32 k),
         Event.print ("pub: " ++ hexEncode32 (env.xonlyOfSecret k)),
         Event.print ("address: " ++
           env.addrOfScript (env.p2trScript (env.xonlyOfSecret k)) network)]
        k (env.p2trScript (env.xonlyOfSecret k)) := by
  simp only [keyPhase, if_neg hnew, hsec]

/-- A run that loads its key, parses the fallback address, builds the
change without panicking, has a client URL, receives a response, and
passes both extraction checks and both consensus verifications, produces
exactly the success trace and artifacts. -/
theorem runMain_success (env : CryptoEnv) (args : Args) (resp : SignPsbtResp)
    (s : String) (k : Nat) (fbSpk : ScriptBuf) (change : Option TxOut)
    (url : String)
    (hpk : args.priv_key = some s) (hnew : s ≠ "new")
    (hsec : secretFromStr s = .ok k)
    (hfb : env.scriptOfAddr args.fallback_addr args.network = some fbSpk)
    (hch : buildChange env args.change_addr args.change_amt args.network =
      .ok change)
    (hurl : args.client_url = some url)
    (hext1 : env.extractCheck resp.spend_psbt = true)
    (hext2 : env.extractCheck (finalPsbtOf env args resp k) = true)
    (hv1 : env.consensusVerify (signedTxOf env args resp k)
      (depositOracle [fundingOf env args k]) = true)
    (hv2 : env.consensusVerify (presignedTxOf resp)
      (spendOracle (signedTxOf env args resp k)) = true) :
    runMain env args (some resp) =
      { events := successEvents env args resp k change url
        outcome := .normal
        funding := some (fundingOf env args k)
        unsignedTx := some (buildUnsignedTx args.prevout args.output_amt change)
        presignedTx := some (presignedTxOf resp)
        preSignPsbt := some (preSignPsbtOf env args resp k)
        signedTx := some (signedTxOf env args resp k)
        finalPsbt := some (finalPsbtOf env args resp k) } := by
  simp [signedTxOf, finalPsbtOf, finalInputOf, signedInputOf, signedPsbtOf,
    preSignPsbtOf, populatedInput, fundingOf, presignedTxOf, depositOriginInput,
    Witness.p2tr_key_spend, TaprootSignature.toVec, KeySource.default,
    Input.default, psbtSighashAll, depositOracle,
    spendOracle] at hext2 hv1 hv2
  simp [runMain, hpk, keyPhase_load env s k args.network hnew hsec, hfb, hch,
    psbtFromUnsignedTx_build, hurl, Psbt.sign, signInputs, signInput,
    taprootHashTyOf, psbtSighashAll, tapSighashFromU8, finalizePsbt,
    finalizeInputs, finalizeInput, Psbt.extract_tx, Except.map, hext1, hext2,
    hv1, hv2, successEvents, fundingOf, preSignPsbtOf, populatedInput, signedPsbtOf,
    signedInputOf, finalPsbtOf, finalInputOf, signedTxOf, presignedTxOf,
    depositOriginInput, Witness.p2tr_key_spend, TaprootSignature.toVec,
    KeySource.default, Input.default, depositOracle, spendOracle]

/-! ## Claims -/

/-- C2: for every configuration (prevout, output_amt, optional change),
the unsigned deposit transaction built before the remote exchange has
version 2, locktime 0, exactly one input referencing the configured
prevout with empty script-sig, sequence `0xFFFFFFFD`, and empty witness;
output 0 has amount `output_amt` and an empty script-pubkey; and when
change is configured a second output with the change amount and the
change address's script-pubkey follows output 0. -/
theorem C2_unsigned_deposit_shape (env : CryptoEnv) (prevout : OutPoint)
    (output_amt : Amount) (change_addr : Option String)
    (change_amt : Option Amount) (network : Network) (change : Option TxOut)
    (hch : buildChange env change_addr change_amt network = .ok change) :
    (buildUnsignedTx prevout output_amt change).version = 2 ∧
    (buildUnsignedTx prevout output_amt change).lock_time = 0 ∧
    (buildUnsignedTx prevout output_amt change).input =
      [{ previous_output := prevout, script_sig := [],
         sequence := 0xFFFFFFFD, witness := [] }] ∧
    (change_addr = Option.none →
      (buildUnsignedTx prevout output_amt change).output =
        [{ value := output_amt, script_pubkey := [] }]) ∧
    (∀ a amt spk, change_addr = some a → change_amt = some amt →
      env.scriptOfAddr a network = some spk →
      (buildUnsignedTx prevout output_amt change).output =
        [{ value := output_amt, script_pubkey := [] },
         { value := amt, script_pubkey := spk }]) := by
  refine ⟨rfl, rfl, rfl, ?_, ?_⟩
  · intro h
    subst h
    simp only [buildChange] at hch
    obtain rfl := Except.ok.inj hch
    rfl
  · intro a amt spk ha hamt hspk
    subst ha; subst hamt
    simp only [buildChange, hspk] at hch
    obtain rfl := Except.ok.inj hch
    rfl

/-- C2 witness: the shape theorem at a concrete configuration with
change configured. -/
theorem C2_witness :
    (buildUnsignedTx { txid := 5, vout := 0 } 90000
        (some { value := 9000, script_pubkey := [0x51, 0x20, 99] })).output =
      [{ value := 90000, script_pubkey := [] },
       { value := 9000, script_pubkey := [0x51, 0x20, 99] }] :=
  (C2_unsigned_deposit_shape trivEnv { txid := 5, vout := 0 } 90000
      (some "chg") (some 9000) .signet
      (some { value := 9000, script_pubkey := [0x51, 0x20, 99] }) rfl).2.2.2.2
    "chg" 9000 [0x51, 0x20, 99] rfl rfl rfl

/-- C3 counterexample: a configuration providing `change_amt` but no
`change_addr` (exactly one of the two) does not fail before network I/O —
the run reaches the HTTP call and even completes normally; `change_amt`
is silently ignored. -/
theorem C3_counterexample :
    amtOnlyArgs.change_amt.isSome = true ∧
    amtOnlyArgs.change_addr = Option.none ∧
    Event.httpCall ∈ (runMain trivEnv amtOnlyArgs (some sampleResp)).events ∧
    (runMain trivEnv amtOnlyArgs (some sampleResp)).outcome = .normal :=
  ⟨rfl, rfl, by decide, by decide⟩

/-- C3 (amended): for a run that loads its key and parses the fallback
address, if `change_addr` is set and `change_amt` is absent the run
panics before the HTTP round-trip (no network I/O happens); but if
`change_amt` is set and `change_addr` is absent, the change amount is
ignored and the run proceeds to the HTTP round-trip. -/
theorem C3_amended (env : CryptoEnv) (args : Args) (resp? : Option SignPsbtResp)
    (s : String) (k : Nat) (fbSpk : ScriptBuf)
    (hpk : args.priv_key = some s) (hnew : s ≠ "new")
    (hsec : secretFromStr s = .ok k)
    (hfb : env.scriptOfAddr args.fallback_addr args.network = some fbSpk) :
    (∀ a, args.change_addr = some a → args.change_amt = Option.none →
      (∃ c, (runMain env args resp?).outcome = .panicked c) ∧
      Event.httpCall ∉ (runMain env args resp?).events) ∧
    (args.change_addr = Option.none → ∀ url, args.client_url = some url →
      Event.httpCall ∈ (runMain env args resp?).events) := by
  constructor
  · intro a ha hamt
    obtain ⟨c, hch⟩ : ∃ c, buildChange env args.change_addr args.change_amt
        args.network = .error c := by
      rw [ha, hamt]
      simp only [buildChange]
      cases env.scriptOfAddr a args.network <;> exact ⟨_, rfl⟩
    simp [runMain, hpk, keyPhase_load env s k args.network hnew hsec, hfb, hch]
  · intro hnone url hurl
    have hch : buildChange env args.change_addr args.change_amt args.network =
        .ok Option.none := by rw [hnone]; rfl
    rcases resp? with _ | resp
    · simp [runMain, hpk, keyPhase_load env s k args.network hnew hsec, hfb,
        hch, psbtFromUnsignedTx_build, hurl]
    · simp only [runMain, hpk, keyPhase_load env s k args.network hnew hsec,
        hfb, hch, psbtFromUnsignedTx_build, hurl, Psbt.extract_tx, Psbt.sign,
        signInputs, signInput, finalizePsbt, finalizeInputs, finalizeInput,
        taprootHashTyOf, psbtSighashAll, tapSighashFromU8, populatedInput,
        Except.map]
      repeat' split
      all_goals (try simp)

/-- C3 witness (amended claim): with a change address but no change
amount, the run panics and the HTTP call never happens. -/
theorem C3_witness :
    Event.httpCall ∉ (runMain trivEnv addrOnlyArgs (some sampleResp)).events :=
  ((C3_amended trivEnv addrOnlyArgs (some sampleResp) sampleSecretHex 1
      [0x51, 0x20, 99] rfl (by decide) rfl rfl).1 "chg" rfl rfl).2

/-- C1 counterexample: in the concrete sample run the finalized deposit
input keeps `witness_utxo`, `tap_internal_key` (and more) populated, so
"only `final_script_witness` remains" is false of it. -/
theorem C1_counterexample :
    (runMain trivEnv baseArgs (some sampleResp)).outcome = .normal ∧
    sampleRun.finalPsbt.map (fun p => p.inputs) = some [sampleFinalInput] ∧
    sampleFinalInput.final_script_witness.isSome = true ∧
    ¬ onlyFinalScriptWitnessRemains sampleFinalInput ∧
    sampleFinalInput.witness_utxo ≠ Option.none ∧
    sampleFinalInput.tap_internal_key ≠ Option.none :=
  ⟨by decide, by decide, by decide, by decide, by decide, by decide⟩

/-- C1 (amended): finalizing the signed deposit input sets
`final_script_witness` and clears `partial_sigs`, `sighash_type`,
`redeem_script`, `witness_script` and `bip32_derivation`; but
`witness_utxo`, `tap_internal_key`, `tap_key_origins` and `tap_key_sig`
remain populated (the claim's "no other per-input metadata field remains
populated" does not hold). -/
theorem C1_amended (env : CryptoEnv) (p : Psbt) (funding : TxOut)
    (xk : XOnlyPublicKey) (i j : Input)
    (hsign : signInput env p 0 (populatedInput funding xk) = .ok i)
    (hfin : finalizeInput i = .ok j) :
    (j.partial_sigs = [] ∧ j.sighash_type = Option.none ∧
     j.redeem_script = Option.none ∧ j.witness_script = Option.none ∧
     j.bip32_derivation = []) ∧
    j.final_script_witness.isSome = true ∧
    (j.witness_utxo = some funding ∧ j.tap_internal_key = some xk ∧
     j.tap_key_origins = depositOriginInput xk ∧
     j.tap_key_sig.isSome = true) := by
  have hstep : signInput env p 0 (populatedInput funding xk) =
      .ok { populatedInput funding xk with
            tap_key_sig := some ⟨env.schnorrSign p 0, .all⟩ } := rfl
  rw [hstep] at hsign
  obtain rfl := (Except.ok.inj hsign).symm
  have hstep2 : finalizeInput { populatedInput funding xk with
      tap_key_sig := some ⟨env.schnorrSign p 0, .all⟩ } =
    .ok { populatedInput funding xk with
          tap_key_sig := some ⟨env.schnorrSign p 0, .all⟩
          final_script_witness :=
            some (Witness.p2tr_key_spend ⟨env.schnorrSign p 0, .all⟩)
          partial_sigs := []
          sighash_type := Option.none
          redeem_script := Option.none
          witness_script := Option.none
          bip32_derivation := [] } := rfl
  rw [hstep2] at hfin
  obtain rfl := (Except.ok.inj hfin).symm
  exact ⟨⟨rfl, rfl, rfl, rfl, rfl⟩, rfl, rfl, rfl, rfl, rfl⟩

/-- C1 witness (amended claim): the finalization effect at a concrete
signed input. -/
theorem C1_witness :
    (wFinalInput.partial_sigs = [] ∧ wFinalInput.sighash_type = Option.none ∧
     wFinalInput.redeem_script = Option.none ∧
     wFinalInput.witness_script = Option.none ∧
     wFinalInput.bip32_derivation = []) ∧
    wFinalInput.final_script_witness.isSome = true ∧
    (wFinalInput.witness_utxo =
       some { value := 100000, script_pubkey := [0x51, 0x20, 2] } ∧
     wFinalInput.tap_internal_key = some 2 ∧
     wFinalInput.tap_key_origins = depositOriginInput 2 ∧
     wFinalInput.tap_key_sig.isSome = true) :=
  C1_amended trivEnv sampleResp.deposit_psbt
    { value := 100000, script_pubkey := [0x51, 0x20, 2] } 2
    wSignedInput wFinalInput rfl rfl

/-- C8: the finalization step is idempotent on PSBT inputs — applying it
to an already-finalized input returns that input unchanged
(`final_script_witness` is rebuilt from the untouched `tap_key_sig` to
the same value, and the cleared fields are cleared again). -/
theorem C8_finalize_idempotent (i j : Input) (h : finalizeInput i = .ok j) :
    finalizeInput j = .ok j := by
  unfold finalizeInput at h ⊢
  cases hsig : i.tap_key_sig with
  | none => rw [hsig] at h; exact absurd h (by simp)
  | some sig =>
    rw [hsig] at h
    obtain rfl := (Except.ok.inj h).symm
    simp [hsig]

/-- C8 witness: idempotence at a concrete finalized input. -/
theorem C8_witness : finalizeInput wFinalInput = .ok wFinalInput :=
  C8_finalize_idempotent wSignedInput wFinalInput rfl

/-- C4: before signing, the deposit PSBT's sole input is populated with
`witness_utxo` = the funding TxOut (prev_amt + the P2TR script of the
loaded key), `tap_internal_key` = the x-only pubkey, `tap_key_origins` =
a single entry mapping that pubkey to an empty leaf-hash list and the
default key source (zero fingerprint, empty path), and `sighash_type` =
Taproot `SIGHASH_ALL`. -/
theorem C4_presign_input (env : CryptoEnv) (args : Args) (resp : SignPsbtResp)
    (s : String) (k : Nat) (fbSpk : ScriptBuf) (change : Option TxOut)
    (url : String)
    (hpk : args.priv_key = some s) (hnew : s ≠ "new")
    (hsec : secretFromStr s = .ok k)
    (hfb : env.scriptOfAddr args.fallback_addr args.network = some fbSpk)
    (hch : buildChange env args.change_addr args.change_amt args.network =
      .ok change)
    (hurl : args.client_url = some url)
    (hext1 : env.extractCheck resp.spend_psbt = true)
    (hext2 : env.extractCheck (finalPsbtOf env args resp k) = true)
    (hv1 : env.consensusVerify (signedTxOf env args resp k)
      (depositOracle [fundingOf env args k]) = true)
    (hv2 : env.consensusVerify (presignedTxOf resp)
      (spendOracle (signedTxOf env args resp k)) = true) :
    (runMain env args (some resp)).preSignPsbt =
      some (preSignPsbtOf env args resp k) ∧
    (preSignPsbtOf env args resp k).inputs =
      [{ witness_utxo :=
           some ⟨args.prev_amt, env.p2trScript (env.xonlyOfSecret k)⟩,
         tap_internal_key := some (env.xonlyOfSecret k),
         tap_key_origins :=
           [(env.xonlyOfSecret k, ([], ⟨[0, 0, 0, 0], []⟩))],
         sighash_type := some psbtSighashAll }] := by
  refine ⟨?_, rfl⟩
  rw [runMain_success env args resp s k fbSpk change url hpk hnew hsec hfb hch
    hurl hext1 hext2 hv1 hv2]

/-- C4 witness: the populated pre-sign PSBT of the concrete sample run. -/
theorem C4_witness :
    (runMain trivEnv baseArgs (some sampleResp)).preSignPsbt =
      some (preSignPsbtOf trivEnv baseArgs sampleResp 1) :=
  (C4_presign_input trivEnv baseArgs sampleResp sampleSecretHex 1
    [0x51, 0x20, 99] Option.none "127.0.0.1:8080" rfl (by decide) rfl rfl rfl
    rfl rfl rfl rfl rfl).1

/-- C5: on a successful run the chain verifier performs exactly two
consensus verifications — deposit first, then the presigned spend — and
both happen only after the deposit PSBT is finalized and extracted (the
non-print event trace is the HTTP call, spend extraction, deposit
signing, finalization, deposit extraction, deposit verify, spend
verify); the deposit verification's oracle resolves every queried
outpoint (in particular the deposit's sole input's) to the funding
TxOut, and the spend verification's oracle resolves every queried
outpoint to the signed deposit transaction's output 0. -/
theorem C5_two_verifications (env : CryptoEnv) (args : Args)
    (resp : SignPsbtResp) (s : String) (k : Nat) (fbSpk : ScriptBuf)
    (change : Option TxOut) (url : String)
    (hpk : args.priv_key = some s) (hnew : s ≠ "new")
    (hsec : secretFromStr s = .ok k)
    (hfb : env.scriptOfAddr args.fallback_addr args.network = some fbSpk)
    (hch : buildChange env args.change_addr args.change_amt args.network =
      .ok change)
    (hurl : args.client_url = some url)
    (hext1 : env.extractCheck resp.spend_psbt = true)
    (hext2 : env.extractCheck (finalPsbtOf env args resp k) = true)
    (hv1 : env.consensusVerify (signedTxOf env args resp k)
      (depositOracle [fundingOf env args k]) = true)
    (hv2 : env.consensusVerify (presignedTxOf resp)
      (spendOracle (signedTxOf env args resp k)) = true) :
    coreEvents (runMain env args (some resp)).events =
      [Event.httpCall, Event.spendExtracted, Event.depositSigned,
       Event.depositFinalized, Event.depositExtracted,
       Event.verifyDeposit, Event.verifySpend] ∧
    (runMain env args (some resp)).funding = some (fundingOf env args k) ∧
    (runMain env args (some resp)).signedTx =
      some (signedTxOf env args resp k) ∧
    (∀ op, depositOracle [fundingOf env args k] op =
      .ok (some (fundingOf env args k))) ∧
    (∀ op o, (signedTxOf env args resp k).output.head? = some o →
      spendOracle (signedTxOf env args resp k) op = .ok (some o)) := by
  rw [runMain_success env args resp s k fbSpk change url hpk hnew hsec hfb hch
    hurl hext1 hext2 hv1 hv2]
  refine ⟨rfl, rfl, rfl, fun op => rfl, fun op o h => ?_⟩
  simp [spendOracle, h]

/-- C5 witness: the verification trace of the concrete sample run. -/
theorem C5_witness :
    coreEvents (runMain trivEnv baseArgs (some sampleResp)).events =
      [Event.httpCall, Event.spendExtracted, Event.depositSigned,
       Event.depositFinalized, Event.depositExtracted,
       Event.verifyDeposit, Event.verifySpend] :=
  (C5_two_verifications trivEnv baseArgs sampleResp sampleSecretHex 1
    [0x51, 0x20, 99] Option.none "127.0.0.1:8080" rfl (by decide) rfl rfl rfl
    rfl rfl rfl rfl rfl).1

/-- C6: when `priv_key` is the literal `"new"`, the program prints the
generated secret as hex, the x-only public key, and the P2TR address for
the configured network, then terminates normally doing nothing else — no
HTTP call and no transaction building. -/
theorem C6_new_key (env : CryptoEnv) (args : Args) (resp? : Option SignPsbtResp)
    (hpk : args.priv_key = some "new") :
    runMain env args resp? =
      { events :=
          [Event.print ("priv: " ++ hexEncode32 env.freshSecret),
           Event.print ("pub: " ++ hexEncode32 (env.xonlyOfSecret env.freshSecret)),
           Event.print ("address: " ++ env.addrOfScript
             (env.p2trScript (env.xonlyOfSecret env.freshSecret)) args.network)]
        outcome := .normal } := by
  simp [runMain, keyPhase, hpk]

/-- C6 witness: the fresh-key run at the concrete configuration. -/
theorem C6_witness :
    runMain trivEnv newKeyArgs (some sampleResp) =
      { events :=
          [Event.print ("priv: " ++ hexEncode32 trivEnv.freshSecret),
           Event.print ("pub: " ++
             hexEncode32 (trivEnv.xonlyOfSecret trivEnv.freshSecret)),
           Event.print ("address: " ++ trivEnv.addrOfScript
             (trivEnv.p2trScript (trivEnv.xonlyOfSecret trivEnv.freshSecret))
             newKeyArgs.network)]
        outcome := .normal } :=
  C6_new_key trivEnv newKeyArgs (some sampleResp) rfl

/-- C7: a `priv_key` other than `"new"` that does not load as a secret —
not 64 hex characters, or not a scalar in `[1, n)` — makes key loading
fail with `InvalidSecretKey` (the spec's `InvalidSecret`), and the
program panics on that error having printed nothing. -/
theorem C7_invalid_secret (env : CryptoEnv) (args : Args)
    (resp? : Option SignPsbtResp) (s : String)
    (hpk : args.priv_key = some s) (hnew : s ≠ "new")
    (hbad : ∀ k, secretFromStr s ≠ .ok k) :
    secretFromStr s = .error .invalidSecretKey ∧
    runMain env args resp? =
      { events := [], outcome := .panicked .invalidSecret } := by
  have herr : secretFromStr s = .error .invalidSecretKey := by
    cases h : secretFromStr s with
    | ok k => exact absurd h (hbad k)
    | error e => cases e; rfl
  refine ⟨herr, ?_⟩
  simp [runMain, keyPhase, hpk, if_neg hnew, herr]

/-- C7 witness: the non-hex secret string `"zz"`. -/
theorem C7_witness :
    runMain trivEnv badKeyArgs (some sampleResp) =
      { events := [], outcome := .panicked .invalidSecret } :=
  (C7_invalid_secret trivEnv badKeyArgs (some sampleResp) "zz" rfl (by decide)
    (fun k h => nomatch h)).2

/-- C9: both prevout-resolution oracles ignore the outpoint they are
asked about — for every two outpoints they return the same answer, and
whenever the backing list is non-empty the answer is its first element
(the funding TxOut, resp. the signed deposit's output 0) — so
verification never compares a queried outpoint against the configured
prevout or the deposit's txid:0. -/
theorem C9_oracles_ignore_outpoint (utxos : List TxOut) (t : Transaction)
    (op op' : OutPoint) :
    depositOracle utxos op = depositOracle utxos op' ∧
    spendOracle t op = spendOracle t op' ∧
    (∀ u rest, utxos = u :: rest → depositOracle utxos op = .ok (some u)) ∧
    (∀ o rest, t.output = o :: rest → spendOracle t op = .ok (some o)) := by
  refine ⟨rfl, rfl, fun u rest h => ?_, fun o rest h => ?_⟩ <;>
    simp [depositOracle, spendOracle, h]

/-- C9 witness: the deposit oracle at an outpoint different from the
one the backing UTXO came from still returns that UTXO. -/
theorem C9_witness :
    depositOracle [{ value := 1, script_pubkey := [2] }]
        { txid := 7, vout := 7 } =
      .ok (some { value := 1, script_pubkey := [2] }) :=
  (C9_oracles_ignore_outpoint [{ value := 1, script_pubkey := [2] }] sampleTx
    { txid := 7, vout := 7 } { txid := 0, vout := 0 }).2.2.1
    { value := 1, script_pubkey := [2] } [] rfl

/-- C10: with `priv_key` absent the program prints `priv key needed` and
returns from `main` normally (exit code 0), with no network I/O and no
transaction built — the missing key is not a non-zero-exit error. -/
theorem C10_missing_key (env : CryptoEnv) (args : Args)
    (resp? : Option SignPsbtResp) (hpk : args.priv_key = Option.none) :
    runMain env args resp? =
      { events := [Event.print "priv key needed"], outcome := .normal } := by
  simp [runMain, keyPhase, hpk]

/-- C10 witness: the keyless run at the concrete configuration. -/
theorem C10_witness :
    runMain trivEnv noKeyArgs (some sampleResp) =
      { events := [Event.print "priv key needed"], outcome := .normal } :=
  C10_missing_key trivEnv noKeyArgs (some sampleResp) rfl
